import Mathlib

/-!
# Deployment script `deploy.js` of the DFHVestingToken vesting contract

A shallow embedding of `src/deploy.js`.

* The six module-level constants are embedded with the arithmetic of the
  source. All of them are products of small integer literals, far below
  `2 ^ 53`, so double arithmetic on them is exact and natural
  numbers model it.
* `start` is a `Date` built from a string in the format of
  `Date.prototype.toString`; ECMAScript requires `Date.parse` to read that
  format back. The time value is computed with the ECMAScript day and time
  formulas (`DayFromYear`, `MakeDay`, `MakeTime`, `MakeDate`).
* A JavaScript number is modelled as an exact rational or `NaN`. Division
  of doubles is correctly rounded, so the model agrees with the machine
  whenever the exact quotient is an integer below `2 ^ 53`.
* `main` is an `async` function: each `await` either yields a value or
  throws. The toolchain objects (`ethers`, the contract factory, the
  deployed token) are parameters of the model, each awaited call being
  given by its outcome. Everything the script does that can be observed
  (console output, calls into the toolchain, `process.exit`) is recorded in
  a trace.
-/

namespace Deploy

/-! ## Numbers -/

/-- A JavaScript number: `none` is `NaN`, `some q` the exact value `q`. -/
abbrev JSNumber := Option ℚ

/-- An integer literal or integer-valued constant as a JavaScript number. -/
def JSNumber.ofNat (n : Nat) : JSNumber := some (n : ℚ)

/-- The operator `/` on numbers. The divisor used by the script is the
non-zero literal `1e3`; division by zero is outside the model and mapped
to `NaN`. -/
def JSNumber.div (a b : JSNumber) : JSNumber :=
  match a, b with
  | some x, some y => if y = 0 then none else some (x / y)
  | _, _ => none

/-- The literal `1e3`. -/
def oneE3 : JSNumber := JSNumber.ofNat 1000

/-! ## Dates -/

/-- The fields read from a date string of the form
`Www Mmm DD YYYY HH:MM:SS GMT+HHMM (Zone name)`. -/
structure DateFields where
  year : Nat
  /-- Month index, `0` for January. -/
  month : Nat
  day : Nat
  hour : Nat
  minute : Nat
  second : Nat
  /-- Offset of the zone from UTC in minutes, positive east of Greenwich. -/
  offsetMinutes : Int
  deriving DecidableEq

/-- Split a character list at every occurrence of `sep`. -/
def splitAt (sep : Char) : List Char → List (List Char)
  | [] => [[]]
  | c :: cs =>
    if c = sep then [] :: splitAt sep cs
    else
      match splitAt sep cs with
      | [] => [[c]]
      | w :: ws => (c :: w) :: ws

/-- Value of a decimal digit character. -/
def digitValue (c : Char) : Option Nat :=
  if '0' ≤ c ∧ c ≤ '9' then some (c.toNat - '0'.toNat) else none

/-- Read a non-empty string of decimal digits. -/
def readNat (cs : List Char) : Option Nat :=
  match cs with
  | [] => none
  | _ => cs.foldl (fun acc c => acc.bind fun n => (digitValue c).map fun d => 10 * n + d) (some 0)

/-- Index of an English three-letter month name. -/
def monthIndex (cs : List Char) : Option Nat :=
  (["Jan", "Feb", "Mar", "Apr", "May", "Jun",
    "Jul", "Aug", "Sep", "Oct", "Nov", "Dec"].map String.toList).indexOf? cs

/-- Whether the token is an English three-letter weekday name. The
weekday carries no information for the time value. -/
def isWeekday (cs : List Char) : Bool :=
  (["Sun", "Mon", "Tue", "Wed", "Thu", "Fri", "Sat"].map String.toList).contains cs

/-- Read `HH:MM:SS`. -/
def readClock (cs : List Char) : Option (Nat × Nat × Nat) :=
  match splitAt ':' cs with
  | [h, m, s] =>
    (readNat h).bind fun h => (readNat m).bind fun m => (readNat s).bind fun s =>
      if h < 24 ∧ m < 60 ∧ s < 60 then some (h, m, s) else none
  | _ => none

/-- Read `GMT+HHMM` or `GMT-HHMM` as minutes east of Greenwich. -/
def readZone (cs : List Char) : Option Int :=
  match cs with
  | ['G', 'M', 'T', sign, h1, h2, m1, m2] =>
    (readNat [h1, h2]).bind fun h => (readNat [m1, m2]).bind fun m =>
      if sign = '+' then some ((60 * h + m : Nat) : Int)
      else if sign = '-' then some (-((60 * h + m : Nat) : Int))
      else none
  | _ => none

/-- Read the fields of a date string in the format of
`Date.prototype.toString`. The parenthesised zone name that ends the string
is a comment and is skipped. -/
def parseFields (s : String) : Option DateFields :=
  match splitAt ' ' s.toList with
  | wd :: mon :: dd :: yyyy :: clock :: zone :: _ =>
    if isWeekday wd then
      (monthIndex mon).bind fun month => (readNat dd).bind fun day =>
      (readNat yyyy).bind fun year => (readClock clock).bind fun hms =>
      (readZone zone).bind fun off =>
        some ⟨year, month, day, hms.1, hms.2.1, hms.2.2, off⟩
    else none
  | _ => none

/-- ECMAScript `DayFromYear`: the day number of 1 January of year `y`,
day `0` being 1 January 1970. The divisions round down. -/
def dayFromYear (y : Int) : Int :=
  365 * (y - 1970) + (y - 1969) / 4 - (y - 1901) / 100 + (y - 1601) / 400

/-- Whether `y` is a leap year of the Gregorian calendar. -/
def isLeapYear (y : Int) : Bool :=
  (y % 4 == 0 && y % 100 != 0) || y % 400 == 0

/-- Number of days of the year that precede the first day of month
`m` (`0` for January). -/
def daysBeforeMonth (leap : Bool) (m : Nat) : Nat :=
  let lengths := [31, if leap then 29 else 28, 31, 30, 31, 30, 31, 31, 30, 31, 30, 31]
  (lengths.take m).sum

/-- ECMAScript `MakeDay`. -/
def makeDay (year : Int) (month day : Nat) : Int :=
  dayFromYear year + daysBeforeMonth (isLeapYear year) month + (day - 1 : Int)

/-- ECMAScript `MakeTime`, in milliseconds. -/
def makeTime (hour minute second ms : Nat) : Int :=
  hour * 3600000 + minute * 60000 + second * 1000 + ms

/-- ECMAScript `MakeDate`, in milliseconds. -/
def makeDate (day time : Int) : Int := day * 86400000 + time

/-- The time value (milliseconds since 1970-01-01T00:00:00Z) of the
fields: the local date and time, moved to UTC by the zone offset. -/
def DateFields.timeValue (f : DateFields) : Int :=
  makeDate (makeDay f.year f.month f.day) (makeTime f.hour f.minute f.second 0)
    - f.offsetMinutes * 60000

/-- A `Date` object: its time value, `none` for an invalid date. -/
structure Date where
  timeValue : Option Int
  deriving DecidableEq

/-- The constructor `new Date(string)`. -/
def Date.new (s : String) : Date := ⟨(parseFields s).map DateFields.timeValue⟩

/-- The method `getTime`: the time value as a number, `NaN` for an
invalid date. -/
def Date.getTime (d : Date) : JSNumber := d.timeValue.map fun t => (t : ℚ)

/-! ## The constants of the script -/

def start : Date := Date.new "Sun Mar 13 2022 20:00:00 GMT+0700 (Indochina Time)"
def cliffDuration : Nat := 30 * 24 * 60 * 60
def cliffDuration2 : Nat := 90 * 24 * 60 * 60
def duration : Nat := 485 * 60 * 60 * 60
def firstReleasePercent : Nat := 5
def secondsPerSlice : Nat := 30 * 24 * 60 * 60

/-! ## Printing numbers -/

/-- Digits after the decimal point of `r / d` for `r < d`, by long
division, at most `fuel` of them. -/
def fractionDigits (d : Nat) : Nat → Nat → List Char
  | 0, _ => []
  | fuel + 1, r =>
    if r = 0 then [] else Nat.digitChar (10 * r / d) :: fractionDigits d fuel (10 * r % d)

/-- The string of a number, as string conversion in a template literal
produces it. An integer below `10 ^ 21` in magnitude is printed as its
decimal digits, which is the case of every number the script prints. Other
values are printed by their decimal expansion, which agrees with JavaScript
for values of at most fifteen significant digits. -/
def numberToString : JSNumber → String
  | none => "NaN"
  | some q =>
    let sign := if q < 0 then "-" else ""
    let whole := q.num.natAbs / q.den
    let rest := q.num.natAbs % q.den
    if rest = 0 then sign ++ Nat.repr whole
    else sign ++ Nat.repr whole ++ "." ++ String.mk (fractionDigits q.den 20 rest)

/-! ## The toolchain and the observable behaviour -/

/-- The deployed token object: its `address` property and the outcome of
awaiting `token.deployed()`, which either returns or throws `e`. -/
structure Token (ε : Type) where
  address : String
  deployed : Except ε Unit

/-- The contract factory: the outcome of awaiting `contract.deploy(...)`
on a list of constructor arguments. -/
structure ContractFactory (ε : Type) where
  deploy : List JSNumber → Except ε (Token ε)

/-- The global `ethers`: the outcome of awaiting
`ethers.getContractFactory(name)`. -/
structure Ethers (ε : Type) where
  getContractFactory : String → Except ε (ContractFactory ε)

/-- What the script does that can be observed from outside. -/
inductive Event (ε : Type) where
  /-- A line written to standard output by `console.log`. -/
  | log (line : String)
  /-- A value written to standard error by `console.error`. -/
  | error (e : ε)
  /-- The call `ethers.getContractFactory(name)`. -/
  | getContractFactory (name : String)
  /-- The call `contract.deploy(...args)`. -/
  | deploy (args : List JSNumber)
  /-- The call `token.deployed()`. -/
  | deployed
  /-- The call `process.exit(code)`. -/
  | exit (code : Nat)

/-- The call `console.log(...args)` on strings, the first of which is
the only one or holds no format specifier: the arguments separated by
single spaces, on one line. -/
def consoleLog {ε : Type} (args : List String) : Event ε :=
  Event.log (" ".intercalate args)

/-- The six arguments of the call `contract.deploy(...)`, in the order
of the source. -/
def deployArguments : List JSNumber :=
  [ start.getTime.div oneE3,
    JSNumber.ofNat cliffDuration,
    JSNumber.ofNat cliffDuration2,
    JSNumber.ofNat duration,
    JSNumber.ofNat firstReleasePercent,
    JSNumber.ofNat secondsPerSlice ]

/-- The async function `main`: the events it causes, and whether the
promise it returns is fulfilled or rejected with a thrown value. -/
def main {ε : Type} (ethers : Ethers ε) : List (Event ε) × Except ε Unit :=
  let t0 : List (Event ε) := [Event.getContractFactory "DFHVestingToken"]
  match ethers.getContractFactory "DFHVestingToken" with
  | Except.error e => (t0, Except.error e)
  | Except.ok contract =>
    let t1 := t0 ++
      [consoleLog ["Deploying DFHVestingToken..."], Event.deploy deployArguments]
    match contract.deploy deployArguments with
    | Except.error e => (t1, Except.error e)
    | Except.ok token =>
      let t2 := t1 ++ [Event.deployed]
      match token.deployed with
      | Except.error e => (t2, Except.error e)
      | Except.ok _ =>
        (t2 ++
          [ consoleLog ["DFHVestingToken deployed to:", token.address],
            consoleLog ["Please enter this command below to verify your contract:"],
            consoleLog ["npx hardhat verify --network testnet " ++ token.address
              ++ " " ++ numberToString (start.getTime.div oneE3)
              ++ " " ++ numberToString (JSNumber.ofNat cliffDuration)
              ++ " " ++ numberToString (JSNumber.ofNat cliffDuration2)
              ++ " " ++ numberToString (JSNumber.ofNat duration)
              ++ " " ++ numberToString (JSNumber.ofNat firstReleasePercent)
              ++ " " ++ numberToString (JSNumber.ofNat secondsPerSlice)] ],
          Except.ok ())

/-- The whole script: `main()` followed by the `then` handler, which
exits with status `0`, and the `catch` handler, which writes the thrown
value to standard error and exits with status `1`. -/
def script {ε : Type} (ethers : Ethers ε) : List (Event ε) :=
  match main ethers with
  | (t, Except.ok _) => t ++ [Event.exit 0]
  | (t, Except.error e) => t ++ [Event.error e, Event.exit 1]

/-- The lines written to standard output, in order. -/
def stdout {ε : Type} (t : List (Event ε)) : List String :=
  t.filterMap fun ev => match ev with
    | Event.log line => some line
    | _ => none

/-- The values written to standard error, in order. -/
def stderr {ε : Type} (t : List (Event ε)) : List ε :=
  t.filterMap fun ev => match ev with
    | Event.error e => some e
    | _ => none

/-- The argument lists of the calls of `contract.deploy`, in order. -/
def deployCalls {ε : Type} (t : List (Event ε)) : List (List JSNumber) :=
  t.filterMap fun ev => match ev with
    | Event.deploy args => some args
    | _ => none

/-- The exit status of the process: the code of the first
`process.exit`, if there is one. -/
def exitCode {ε : Type} (t : List (Event ε)) : Option Nat :=
  t.findSome? fun ev => match ev with
    | Event.exit code => some code
    | _ => none

/-! ## Sample toolchains -/

/-- A token at address `a` whose confirmation succeeds. -/
def confirmedToken (a : String) : Token String := ⟨a, Except.ok ()⟩

/-- A token at address `a` whose confirmation throws `e`. -/
def unconfirmedToken (a e : String) : Token String := ⟨a, Except.error e⟩

/-- A factory whose `deploy` returns the token `t` whatever the arguments. -/
def factoryOf (t : Token String) : ContractFactory String := ⟨fun _ => Except.ok t⟩

/-- A factory whose `deploy` throws `e`. -/
def failingFactory (e : String) : ContractFactory String := ⟨fun _ => Except.error e⟩

/-- A toolchain that resolves every artifact name to the factory `c`. -/
def ethersOf (c : ContractFactory String) : Ethers String := ⟨fun _ => Except.ok c⟩

/-- A toolchain whose factory resolution throws `e`. -/
def failingEthers (e : String) : Ethers String := ⟨fun _ => Except.error e⟩

end Deploy

/-! ## Properties -/

namespace Deploy

theorem parseFields_start :
    parseFields "Sun Mar 13 2022 20:00:00 GMT+0700 (Indochina Time)"
      = some ⟨2022, 2, 13, 20, 0, 0, 420⟩ := by decide

theorem start_timeValue : start.timeValue = some 1647176400000 := by decide

theorem startSeconds_eq : start.getTime.div oneE3 = some (1647176400 : ℚ) := by
  simp only [Date.getTime, start_timeValue, oneE3, JSNumber.ofNat, JSNumber.div, Option.map]
  norm_num

theorem numberToString_natCast (n : Nat) :
    numberToString (some (n : ℚ)) = Nat.repr n := by
  have h : ¬ ((n : ℚ) < 0) := not_lt.mpr (Nat.cast_nonneg n)
  simp only [numberToString, Rat.num_natCast, Rat.den_natCast, Int.natAbs_ofNat, Nat.mod_one,
    Nat.div_one, if_true, h, if_false]
  rfl

theorem numberToString_ofNat (n : Nat) :
    numberToString (JSNumber.ofNat n) = Nat.repr n := numberToString_natCast n

theorem print_start : numberToString (start.getTime.div oneE3) = "1647176400" := by
  have h : start.getTime.div oneE3 = JSNumber.ofNat 1647176400 := by
    rw [startSeconds_eq]; simp [JSNumber.ofNat]
  rw [h, numberToString_ofNat]
  decide

theorem print_cliffDuration : numberToString (JSNumber.ofNat cliffDuration) = "2592000" := by
  rw [numberToString_ofNat]; decide

theorem print_cliffDuration2 : numberToString (JSNumber.ofNat cliffDuration2) = "7776000" := by
  rw [numberToString_ofNat]; decide

theorem print_duration : numberToString (JSNumber.ofNat duration) = "104760000" := by
  rw [numberToString_ofNat]; decide

theorem print_firstReleasePercent :
    numberToString (JSNumber.ofNat firstReleasePercent) = "5" := by
  rw [numberToString_ofNat]; decide

theorem print_secondsPerSlice : numberToString (JSNumber.ofNat secondsPerSlice) = "2592000" := by
  rw [numberToString_ofNat]; decide

theorem print_deployArguments :
    deployArguments.map numberToString
      = ["1647176400", "2592000", "7776000", "104760000", "5", "2592000"] := by
  simp only [deployArguments, List.map, print_start, print_cliffDuration, print_cliffDuration2,
    print_duration, print_firstReleasePercent, print_secondsPerSlice]

theorem deployArguments_values :
    deployArguments
      = [some (1647176400 : ℚ), some (2592000 : ℚ), some (7776000 : ℚ),
          some (104760000 : ℚ), some (5 : ℚ), some (2592000 : ℚ)] := by
  simp only [deployArguments, startSeconds_eq, JSNumber.ofNat, cliffDuration, cliffDuration2,
    duration, firstReleasePercent, secondsPerSlice]
  norm_num

theorem intercalate_one (x : String) : " ".intercalate [x] = x := rfl

theorem intercalate_two (x y : String) : " ".intercalate [x, y] = x ++ " " ++ y := rfl

theorem intercalate_eight (a b c d e f g h : String) :
    " ".intercalate [a, b, c, d, e, f, g, h]
      = a ++ " " ++ b ++ " " ++ c ++ " " ++ d ++ " " ++ e ++ " " ++ f ++ " " ++ g ++ " " ++ h :=
  rfl

theorem command_head :
    "npx hardhat verify --network testnet" ++ " " = "npx hardhat verify --network testnet " := by
  decide

theorem constants_tail :
    " " ++ ("1647176400" ++ (" " ++ ("2592000" ++ (" " ++ ("7776000" ++ (" " ++ ("104760000"
      ++ (" " ++ ("5" ++ (" " ++ "2592000"))))))))))
      = " 1647176400 2592000 7776000 104760000 5 2592000" := by decide

theorem address_head : "DFHVestingToken deployed to:" ++ " " = "DFHVestingToken deployed to: " := by
  decide

/-- The trace of `main` when factory resolution throws. -/
theorem main_factory_error {ε : Type} (ethers : Ethers ε) (e : ε)
    (h1 : ethers.getContractFactory "DFHVestingToken" = Except.error e) :
    main ethers = ([Event.getContractFactory "DFHVestingToken"], Except.error e) := by
  simp only [main, h1]

/-- The trace of `main` when deployment submission throws. -/
theorem main_deploy_error {ε : Type} (ethers : Ethers ε) (contract : ContractFactory ε) (e : ε)
    (h1 : ethers.getContractFactory "DFHVestingToken" = Except.ok contract)
    (h2 : contract.deploy deployArguments = Except.error e) :
    main ethers =
      ([Event.getContractFactory "DFHVestingToken", Event.log "Deploying DFHVestingToken...",
        Event.deploy deployArguments], Except.error e) := by
  simp only [main, h1, h2, consoleLog, intercalate_one, List.cons_append, List.nil_append]

/-- The trace of `main` when deployment confirmation throws. -/
theorem main_confirm_error {ε : Type} (ethers : Ethers ε) (contract : ContractFactory ε)
    (token : Token ε) (e : ε)
    (h1 : ethers.getContractFactory "DFHVestingToken" = Except.ok contract)
    (h2 : contract.deploy deployArguments = Except.ok token)
    (h3 : token.deployed = Except.error e) :
    main ethers =
      ([Event.getContractFactory "DFHVestingToken", Event.log "Deploying DFHVestingToken...",
        Event.deploy deployArguments, Event.deployed], Except.error e) := by
  simp only [main, h1, h2, h3, consoleLog, intercalate_one, List.cons_append, List.nil_append]

/-- The trace of `main` when the three awaited steps succeed. -/
theorem main_success {ε : Type} (ethers : Ethers ε) (contract : ContractFactory ε)
    (token : Token ε)
    (h1 : ethers.getContractFactory "DFHVestingToken" = Except.ok contract)
    (h2 : contract.deploy deployArguments = Except.ok token)
    (h3 : token.deployed = Except.ok ()) :
    main ethers =
      ([Event.getContractFactory "DFHVestingToken", Event.log "Deploying DFHVestingToken...",
        Event.deploy deployArguments, Event.deployed,
        Event.log ("DFHVestingToken deployed to: " ++ token.address),
        Event.log "Please enter this command below to verify your contract:",
        Event.log ("npx hardhat verify --network testnet " ++ token.address
          ++ " 1647176400 2592000 7776000 104760000 5 2592000")], Except.ok ()) := by
  simp only [main, h1, h2, h3, consoleLog, intercalate_one, intercalate_two, List.cons_append,
    List.nil_append, print_start, print_cliffDuration, print_cliffDuration2, print_duration,
    print_firstReleasePercent, print_secondsPerSlice, String.append_assoc, constants_tail]
  rw [← String.append_assoc "DFHVestingToken deployed to:" " ", address_head]

theorem progress_ne_address (a : String) :
    "Deploying DFHVestingToken..." ≠ "DFHVestingToken deployed to: " ++ a := by
  intro h
  have h2 : some 'e' = some 'F' := congrArg (fun s => s.data.get? 1) h
  exact absurd h2 (by decide)

theorem progress_ne_command (r : String) :
    "Deploying DFHVestingToken..." ≠ "npx hardhat verify --network testnet " ++ r := by
  intro h
  have h2 : some 'D' = some 'n' := congrArg (fun s => s.data.get? 0) h
  exact absurd h2 (by decide)

/-! ### The verification command -/

/-- C1: when factory resolution, deployment and confirmation succeed and
the deployed token has address `a`, the last line `main` prints is
`npx hardhat verify --network testnet ` followed by `a` and by the six
constants in declared order, separated by single spaces, with nothing
after them; the six strings are those of start in seconds, cliffDuration,
cliffDuration2, duration, firstReleasePercent and secondsPerSlice. -/
theorem verify_command_last_line {ε : Type} (ethers : Ethers ε)
    (contract : ContractFactory ε) (token : Token ε)
    (h1 : ethers.getContractFactory "DFHVestingToken" = Except.ok contract)
    (h2 : contract.deploy deployArguments = Except.ok token)
    (h3 : token.deployed = Except.ok ()) :
    (stdout (main ethers).1).getLast? =
        some ("npx hardhat verify --network testnet " ++ token.address
          ++ " 1647176400 2592000 7776000 104760000 5 2592000")
      ∧ [numberToString (start.getTime.div oneE3),
          numberToString (JSNumber.ofNat cliffDuration),
          numberToString (JSNumber.ofNat cliffDuration2),
          numberToString (JSNumber.ofNat duration),
          numberToString (JSNumber.ofNat firstReleasePercent),
          numberToString (JSNumber.ofNat secondsPerSlice)]
        = ["1647176400", "2592000", "7776000", "104760000", "5", "2592000"] := by
  refine ⟨?_, print_deployArguments⟩
  rw [main_success ethers contract token h1 h2 h3]
  rfl

theorem verify_command_last_line_witness :
    (ethersOf (factoryOf (confirmedToken "0x5FbDB2315678afecb367f032d93F642f64180aa3"))).getContractFactory
        "DFHVestingToken"
        = Except.ok (factoryOf (confirmedToken "0x5FbDB2315678afecb367f032d93F642f64180aa3"))
      ∧ (stdout (main (ethersOf (factoryOf
          (confirmedToken "0x5FbDB2315678afecb367f032d93F642f64180aa3")))).1).getLast? =
        some ("npx hardhat verify --network testnet "
          ++ (confirmedToken "0x5FbDB2315678afecb367f032d93F642f64180aa3").address
          ++ " 1647176400 2592000 7776000 104760000 5 2592000") :=
  ⟨rfl, (verify_command_last_line _ _ _ rfl rfl rfl).1⟩

/-- C4: on a successful run `contract.deploy` is called once, with the
six values start.getTime() / 1e3, cliffDuration, cliffDuration2, duration,
firstReleasePercent, secondsPerSlice in this order, which are the numbers
1647176400, 2592000, 7776000, 104760000, 5 and 2592000; their strings are
the numerals `1647176400`, `2592000`, `7776000`, `104760000`, `5` and
`2592000`; and the verification command printed last is
`npx hardhat verify --network testnet`, the address and these six numerals,
the strings of the same six values in the same order, separated by single
spaces. -/
theorem deploy_arguments_match_command {ε : Type} (ethers : Ethers ε)
    (contract : ContractFactory ε) (token : Token ε)
    (h1 : ethers.getContractFactory "DFHVestingToken" = Except.ok contract)
    (h2 : contract.deploy deployArguments = Except.ok token)
    (h3 : token.deployed = Except.ok ()) :
    deployCalls (script ethers) =
        [[start.getTime.div oneE3, JSNumber.ofNat cliffDuration,
          JSNumber.ofNat cliffDuration2, JSNumber.ofNat duration,
          JSNumber.ofNat firstReleasePercent, JSNumber.ofNat secondsPerSlice]]
      ∧ deployCalls (script ethers) =
        [[some (1647176400 : ℚ), some (2592000 : ℚ), some (7776000 : ℚ),
          some (104760000 : ℚ), some (5 : ℚ), some (2592000 : ℚ)]]
      ∧ [start.getTime.div oneE3, JSNumber.ofNat cliffDuration,
          JSNumber.ofNat cliffDuration2, JSNumber.ofNat duration,
          JSNumber.ofNat firstReleasePercent,
          JSNumber.ofNat secondsPerSlice].map numberToString
        = ["1647176400", "2592000", "7776000", "104760000", "5", "2592000"]
      ∧ (stdout (script ethers)).getLast? =
          some (" ".intercalate
            ("npx hardhat verify --network testnet" :: token.address
              :: [start.getTime.div oneE3, JSNumber.ofNat cliffDuration,
                  JSNumber.ofNat cliffDuration2, JSNumber.ofNat duration,
                  JSNumber.ofNat firstReleasePercent,
                  JSNumber.ofNat secondsPerSlice].map numberToString))
      ∧ (stdout (script ethers)).getLast? =
          some (" ".intercalate
            ["npx hardhat verify --network testnet", token.address,
              "1647176400", "2592000", "7776000", "104760000", "5", "2592000"])
      ∧ (stdout (script ethers)).getLast? =
          some ("npx hardhat verify --network testnet " ++ token.address
            ++ " 1647176400 2592000 7776000 104760000 5 2592000") := by
  have hp := print_deployArguments
  simp only [deployArguments] at hp
  have hv := deployArguments_values
  simp only [deployArguments] at hv
  have hlast : (stdout (script ethers)).getLast? =
      some ("npx hardhat verify --network testnet " ++ token.address
        ++ " 1647176400 2592000 7776000 104760000 5 2592000") := by
    simp only [script, main_success ethers contract token h1 h2 h3]
    rfl
  have hjoin : " ".intercalate
      ["npx hardhat verify --network testnet", token.address,
        "1647176400", "2592000", "7776000", "104760000", "5", "2592000"]
      = "npx hardhat verify --network testnet " ++ token.address
        ++ " 1647176400 2592000 7776000 104760000 5 2592000" := by
    rw [intercalate_eight]
    simp only [String.append_assoc, constants_tail]
    rw [← String.append_assoc "npx hardhat verify --network testnet" " ", command_head]
  have hcalls : deployCalls (script ethers) =
      [[start.getTime.div oneE3, JSNumber.ofNat cliffDuration,
        JSNumber.ofNat cliffDuration2, JSNumber.ofNat duration,
        JSNumber.ofNat firstReleasePercent, JSNumber.ofNat secondsPerSlice]] := by
    simp only [script, main_success ethers contract token h1 h2 h3]
    rfl
  refine ⟨hcalls, ?_, hp, ?_, ?_, hlast⟩
  · rw [hcalls, hv]
  · rw [hp, hjoin]
    exact hlast
  · rw [hjoin]
    exact hlast

theorem deploy_arguments_match_command_witness :
    (factoryOf (confirmedToken "0xC0ffee")).deploy deployArguments
        = Except.ok (confirmedToken "0xC0ffee")
      ∧ deployCalls (script (ethersOf (factoryOf (confirmedToken "0xC0ffee")))) =
        [[some (1647176400 : ℚ), some (2592000 : ℚ), some (7776000 : ℚ),
          some (104760000 : ℚ), some (5 : ℚ), some (2592000 : ℚ)]]
      ∧ (stdout (script (ethersOf (factoryOf (confirmedToken "0xC0ffee"))))).getLast? =
          some ("npx hardhat verify --network testnet "
            ++ (confirmedToken "0xC0ffee").address
            ++ " 1647176400 2592000 7776000 104760000 5 2592000") :=
  ⟨rfl, (deploy_arguments_match_command _ _ _ rfl rfl rfl).2.1,
    (deploy_arguments_match_command (ethersOf (factoryOf (confirmedToken "0xC0ffee")))
      _ _ rfl rfl rfl).2.2.2.2.2⟩

/-! ### Exit status and error reporting -/

/-- C2: the exit status is 0 when factory resolution, deployment
submission and deployment confirmation all succeed, and nothing is written
to standard error; when any one of the three throws a value `e`, the exit
status is 1 and `e` is what is written to standard error. -/
theorem exit_status_of_outcome {ε : Type} (ethers : Ethers ε) :
    (∀ contract token,
        ethers.getContractFactory "DFHVestingToken" = Except.ok contract →
        contract.deploy deployArguments = Except.ok token →
        token.deployed = Except.ok () →
        exitCode (script ethers) = some 0 ∧ stderr (script ethers) = [])
    ∧ (∀ e,
        ethers.getContractFactory "DFHVestingToken" = Except.error e →
        exitCode (script ethers) = some 1 ∧ stderr (script ethers) = [e])
    ∧ (∀ contract e,
        ethers.getContractFactory "DFHVestingToken" = Except.ok contract →
        contract.deploy deployArguments = Except.error e →
        exitCode (script ethers) = some 1 ∧ stderr (script ethers) = [e])
    ∧ (∀ contract token e,
        ethers.getContractFactory "DFHVestingToken" = Except.ok contract →
        contract.deploy deployArguments = Except.ok token →
        token.deployed = Except.error e →
        exitCode (script ethers) = some 1 ∧ stderr (script ethers) = [e]) := by
  refine ⟨?_, ?_, ?_, ?_⟩
  · intro contract token h1 h2 h3
    simp only [script, main_success ethers contract token h1 h2 h3]
    exact ⟨rfl, rfl⟩
  · intro e h1
    simp only [script, main_factory_error ethers e h1]
    exact ⟨rfl, rfl⟩
  · intro contract e h1 h2
    simp only [script, main_deploy_error ethers contract e h1 h2]
    exact ⟨rfl, rfl⟩
  · intro contract token e h1 h2 h3
    simp only [script, main_confirm_error ethers contract token e h1 h2 h3]
    exact ⟨rfl, rfl⟩

theorem exit_status_of_outcome_witness :
    (exitCode (script (ethersOf (factoryOf (confirmedToken "0xA1")))) = some 0
        ∧ stderr (script (ethersOf (factoryOf (confirmedToken "0xA1")))) = [])
      ∧ (exitCode (script (failingEthers "no artifact")) = some 1
        ∧ stderr (script (failingEthers "no artifact")) = ["no artifact"])
      ∧ (exitCode (script (ethersOf (failingFactory "reverted"))) = some 1
        ∧ stderr (script (ethersOf (failingFactory "reverted"))) = ["reverted"])
      ∧ (exitCode (script (ethersOf (factoryOf (unconfirmedToken "0xA1" "dropped")))) = some 1
        ∧ stderr (script (ethersOf (factoryOf (unconfirmedToken "0xA1" "dropped"))))
          = ["dropped"]) :=
  ⟨(exit_status_of_outcome (ethersOf (factoryOf (confirmedToken "0xA1")))).1 _ _ rfl rfl rfl,
   (exit_status_of_outcome (failingEthers "no artifact")).2.1 _ rfl,
   (exit_status_of_outcome (ethersOf (failingFactory "reverted"))).2.2.1 _ _ rfl rfl,
   (exit_status_of_outcome (ethersOf (factoryOf (unconfirmedToken "0xA1" "dropped")))).2.2.2
     _ _ _ rfl rfl rfl⟩

/-- C3: whenever factory resolution, deployment submission or deployment
confirmation throws, standard output is empty or holds only the progress
message, so no line of it is an address line or a verification command,
and the exit status is 1. -/
theorem failure_prints_no_address {ε : Type} (ethers : Ethers ε)
    (h : (∃ e, ethers.getContractFactory "DFHVestingToken" = Except.error e)
      ∨ (∃ contract e,
          ethers.getContractFactory "DFHVestingToken" = Except.ok contract
          ∧ contract.deploy deployArguments = Except.error e)
      ∨ (∃ contract token e,
          ethers.getContractFactory "DFHVestingToken" = Except.ok contract
          ∧ contract.deploy deployArguments = Except.ok token
          ∧ token.deployed = Except.error e)) :
    (stdout (script ethers) = [] ∨ stdout (script ethers) = ["Deploying DFHVestingToken..."])
      ∧ (∀ line ∈ stdout (script ethers),
          (∀ a : String, line ≠ "DFHVestingToken deployed to: " ++ a)
          ∧ (∀ r : String, line ≠ "npx hardhat verify --network testnet " ++ r))
      ∧ exitCode (script ethers) = some 1 := by
  have key : (stdout (script ethers) = []
      ∨ stdout (script ethers) = ["Deploying DFHVestingToken..."])
      ∧ exitCode (script ethers) = some 1 := by
    rcases h with ⟨e, h1⟩ | ⟨contract, e, h1, h2⟩ | ⟨contract, token, e, h1, h2, h3⟩
    · simp only [script, main_factory_error ethers e h1]
      exact ⟨Or.inl rfl, rfl⟩
    · simp only [script, main_deploy_error ethers contract e h1 h2]
      exact ⟨Or.inr rfl, rfl⟩
    · simp only [script, main_confirm_error ethers contract token e h1 h2 h3]
      exact ⟨Or.inr rfl, rfl⟩
  refine ⟨key.1, ?_, key.2⟩
  intro line hl
  rcases key.1 with h0 | h0
  · rw [h0] at hl
    exact absurd hl (List.not_mem_nil line)
  · rw [h0] at hl
    have hline : line = "Deploying DFHVestingToken..." := List.mem_singleton.mp hl
    subst hline
    exact ⟨progress_ne_address, progress_ne_command⟩

theorem failure_prints_no_address_witness :
    (factoryOf (unconfirmedToken "0xB2" "timeout")).deploy deployArguments
        = Except.ok (unconfirmedToken "0xB2" "timeout")
      ∧ (unconfirmedToken "0xB2" "timeout").deployed = Except.error "timeout"
      ∧ stdout (script (ethersOf (factoryOf (unconfirmedToken "0xB2" "timeout"))))
        = ["Deploying DFHVestingToken..."]
      ∧ exitCode (script (ethersOf (factoryOf (unconfirmedToken "0xB2" "timeout")))) = some 1 :=
  ⟨rfl, rfl,
   ((failure_prints_no_address (ethersOf (factoryOf (unconfirmedToken "0xB2" "timeout")))
      (Or.inr (Or.inr ⟨_, _, _, rfl, rfl, rfl⟩))).1).resolve_left (by
        intro h0
        have hl : (stdout (script (ethersOf (factoryOf
            (unconfirmedToken "0xB2" "timeout"))))).length = 1 := rfl
        rw [h0] at hl
        exact absurd hl (by decide)),
   (failure_prints_no_address (ethersOf (factoryOf (unconfirmedToken "0xB2" "timeout")))
      (Or.inr (Or.inr ⟨_, _, _, rfl, rfl, rfl⟩))).2.2⟩

/-! ### The constants -/

/-- C5: the start value passed to the constructor and printed,
start.getTime() / 1e3, is exactly 1647176400, the Unix-seconds value of
2022-03-13 20:00:00 at GMT+0700, which is 2022-03-13T13:00:00Z: the time
value 1647176400000 is a multiple of 1000, so the quotient is an integer,
below 2 ^ 53, and nothing is rounded. -/
theorem start_seconds_exact :
    parseFields "Sun Mar 13 2022 20:00:00 GMT+0700 (Indochina Time)"
        = some ⟨2022, 2, 13, 20, 0, 0, 420⟩
      ∧ DateFields.timeValue ⟨2022, 2, 13, 20, 0, 0, 420⟩
        = DateFields.timeValue ⟨2022, 2, 13, 13, 0, 0, 0⟩
      ∧ start.timeValue = some 1647176400000
      ∧ (1647176400000 : Int) % 1000 = 0
      ∧ (1647176400000 : Int) / 1000 = 1647176400
      ∧ start.getTime.div oneE3 = some (1647176400 : ℚ)
      ∧ (1647176400 : Nat) < 2 ^ 53
      ∧ deployArguments.head? = some (start.getTime.div oneE3)
      ∧ numberToString (start.getTime.div oneE3) = "1647176400" :=
  ⟨parseFields_start, by decide, start_timeValue, by decide, by decide, startSeconds_eq,
    by decide, rfl, print_start⟩

/-- C6: cliffDuration is 2,592,000, cliffDuration2 is 7,776,000 and
secondsPerSlice is 2,592,000, that is 30 days, 90 days and 30 days in
seconds (days × 24 × 60 × 60). -/
theorem cliff_and_slice_values :
    cliffDuration = 2592000 ∧ cliffDuration2 = 7776000 ∧ secondsPerSlice = 2592000
      ∧ cliffDuration = 30 * (24 * 60 * 60)
      ∧ cliffDuration2 = 90 * (24 * 60 * 60)
      ∧ secondsPerSlice = 30 * (24 * 60 * 60) := by
  decide

/-- C7, as the code has it: duration is 104,760,000, which is not
cliffDuration + cliffDuration2 + 365 × 24 × 60 × 60 = 485 × 24 × 60 × 60 =
41,904,000, the value the comment of the source announces. -/
theorem duration_differs_from_comment :
    duration = 104760000
      ∧ cliffDuration + cliffDuration2 + 365 * 24 * 60 * 60 = 41904000
      ∧ 485 * 24 * 60 * 60 = 41904000
      ∧ duration ≠ cliffDuration + cliffDuration2 + 365 * 24 * 60 * 60 := by
  decide

/-- C8: duration is 485 × 60 × 60 × 60 = 104,760,000; on a successful run
it is the fourth argument of the call of `contract.deploy`, and its string
is the fourth of the six constants that follow the address in the
verification command printed last. -/
theorem duration_value_passed_and_printed {ε : Type} (ethers : Ethers ε)
    (contract : ContractFactory ε) (token : Token ε)
    (h1 : ethers.getContractFactory "DFHVestingToken" = Except.ok contract)
    (h2 : contract.deploy deployArguments = Except.ok token)
    (h3 : token.deployed = Except.ok ()) :
    duration = 485 * 60 * 60 * 60 ∧ duration = 104760000
      ∧ deployCalls (script ethers) = [deployArguments]
      ∧ deployArguments.get? 3 = some (JSNumber.ofNat duration)
      ∧ JSNumber.ofNat duration = some (104760000 : ℚ)
      ∧ (stdout (script ethers)).getLast? =
          some (" ".intercalate
            ("npx hardhat verify --network testnet" :: token.address
              :: deployArguments.map numberToString))
      ∧ (deployArguments.map numberToString).length = 6
      ∧ (deployArguments.map numberToString).get? 3
          = some (numberToString (JSNumber.ofNat duration))
      ∧ numberToString (JSNumber.ofNat duration) = "104760000" := by
  refine ⟨by decide, by decide, ?_, rfl, ?_, ?_, rfl, rfl, print_duration⟩
  · simp only [script, main_success ethers contract token h1 h2 h3]
    rfl
  · simp [JSNumber.ofNat, duration]
  · simp only [script, main_success ethers contract token h1 h2 h3, print_deployArguments]
    rw [intercalate_eight]
    simp only [String.append_assoc, constants_tail]
    rw [← String.append_assoc "npx hardhat verify --network testnet" " ", command_head]
    rfl

theorem duration_value_passed_and_printed_witness :
    (confirmedToken "0xD4").deployed = Except.ok ()
      ∧ deployCalls (script (ethersOf (factoryOf (confirmedToken "0xD4")))) = [deployArguments]
      ∧ deployArguments.get? 3 = some (JSNumber.ofNat duration)
      ∧ numberToString (JSNumber.ofNat duration) = "104760000" :=
  ⟨rfl, (duration_value_passed_and_printed _ _ _ rfl rfl rfl).2.2.1,
    (duration_value_passed_and_printed (ethersOf (factoryOf (confirmedToken "0xD4")))
      _ _ rfl rfl rfl).2.2.2.1,
    (duration_value_passed_and_printed (ethersOf (factoryOf (confirmedToken "0xD4")))
      _ _ rfl rfl rfl).2.2.2.2.2.2.2.2⟩

/-- C10, as stated, fails: cliffDuration2 is not 30 × 24 × 60 × 60 and
differs from cliffDuration. -/
theorem cliffDuration2_not_thirty_days :
    ¬ (cliffDuration = 30 * 24 * 60 * 60 ∧ cliffDuration2 = 30 * 24 * 60 * 60
        ∧ secondsPerSlice = 30 * 24 * 60 * 60)
      ∧ cliffDuration2 ≠ cliffDuration := by
  decide

/-- C10, amended: cliffDuration and secondsPerSlice both equal
30 × 24 × 60 × 60, so they are equal; cliffDuration2 equals
90 × 24 × 60 × 60, three times as much. -/
theorem thirty_and_ninety_days :
    cliffDuration = 30 * 24 * 60 * 60 ∧ secondsPerSlice = 30 * 24 * 60 * 60
      ∧ cliffDuration = secondsPerSlice
      ∧ cliffDuration2 = 90 * 24 * 60 * 60
      ∧ cliffDuration2 = 3 * cliffDuration := by
  decide

/-! ### Standard output of a successful run -/

/-- C9, as stated, fails: a run in which the three steps succeed exits
with status 0 and writes four lines to standard output, not three. -/
theorem successful_run_not_three_lines :
    (ethersOf (factoryOf (confirmedToken "0xE5"))).getContractFactory "DFHVestingToken"
        = Except.ok (factoryOf (confirmedToken "0xE5"))
      ∧ (factoryOf (confirmedToken "0xE5")).deploy deployArguments
        = Except.ok (confirmedToken "0xE5")
      ∧ (confirmedToken "0xE5").deployed = Except.ok ()
      ∧ exitCode (script (ethersOf (factoryOf (confirmedToken "0xE5")))) = some 0
      ∧ (stdout (script (ethersOf (factoryOf (confirmedToken "0xE5"))))).length = 4
      ∧ (stdout (script (ethersOf (factoryOf (confirmedToken "0xE5"))))).length ≠ 3 := by
  refine ⟨rfl, rfl, rfl, rfl, rfl, ?_⟩
  have h4 : (stdout (script (ethersOf (factoryOf (confirmedToken "0xE5"))))).length = 4 := rfl
  rw [h4]
  decide

/-- C9, amended: on a successful run the script writes exactly four
lines to standard output: the progress message, the line giving the
deployed address, a line asking to run the command below, and the
verification command listing the address followed by the six constructor
argument values. -/
theorem successful_run_four_lines {ε : Type} (ethers : Ethers ε)
    (contract : ContractFactory ε) (token : Token ε)
    (h1 : ethers.getContractFactory "DFHVestingToken" = Except.ok contract)
    (h2 : contract.deploy deployArguments = Except.ok token)
    (h3 : token.deployed = Except.ok ()) :
    stdout (script ethers) =
        ["Deploying DFHVestingToken...",
         "DFHVestingToken deployed to: " ++ token.address,
         "Please enter this command below to verify your contract:",
         "npx hardhat verify --network testnet " ++ token.address
           ++ " 1647176400 2592000 7776000 104760000 5 2592000"]
      ∧ (stdout (script ethers)).length = 4 := by
  simp only [script, main_success ethers contract token h1 h2 h3]
  exact ⟨rfl, rfl⟩

theorem successful_run_four_lines_witness :
    (ethersOf (factoryOf (confirmedToken "0xF6"))).getContractFactory "DFHVestingToken"
        = Except.ok (factoryOf (confirmedToken "0xF6"))
      ∧ stdout (script (ethersOf (factoryOf (confirmedToken "0xF6")))) =
        ["Deploying DFHVestingToken...",
         "DFHVestingToken deployed to: " ++ (confirmedToken "0xF6").address,
         "Please enter this command below to verify your contract:",
         "npx hardhat verify --network testnet " ++ (confirmedToken "0xF6").address
           ++ " 1647176400 2592000 7776000 104760000 5 2592000"] :=
  ⟨rfl, (successful_run_four_lines _ _ _ rfl rfl rfl).1⟩

end Deploy
